import Mathlib

/-!
Shallow embedding of the task lifecycle manager and overlap analysis of the
whiplash repository (src/utils/tauri.ts mock backend, src/hooks/useClaudeCode.ts,
src/hooks/useOverlapAnalysis.ts).

Timestamps (JS `Date`) are modelled as milliseconds since the epoch, as `Int`
(JS dates compare by their numeric millisecond value).
-/

namespace Whiplash

/-- Task status union type `'pending' | 'running' | 'completed' | 'failed'`. -/
inductive TaskStatus
  | pending
  | running
  | completed
  | failed
deriving DecidableEq, Repr

/-- Worktree status union type `'active' | 'idle' | 'error'`. -/
inductive WorktreeStatus
  | active
  | idle
  | error
deriving DecidableEq, Repr

/-- Conflict risk union type `'low' | 'medium' | 'high'`. -/
inductive Risk
  | low
  | medium
  | high
deriving DecidableEq, Repr

/-- `GitWorktree` record from the shared types module. -/
structure GitWorktree where
  id : String
  name : String
  branch : String
  path : String
  status : WorktreeStatus
  createdAt : Int
  lastActivity : Int
deriving DecidableEq, Repr

/-- `ClaudeTask` record from the shared types module. -/
structure ClaudeTask where
  id : String
  description : String
  status : TaskStatus
  startedAt : Option Int
  completedAt : Option Int
  output : List String
  workingDirectory : String
deriving DecidableEq, Repr

/-- `FileOverlap` record: `lastModified` maps a worktree name to that
worktree's last-modification time for the file. -/
structure FileOverlap where
  filePath : String
  worktrees : List String
  conflictRisk : Risk
  lastModified : List (String × Int)
deriving DecidableEq, Repr

/-- The `riskAssessment` tally of an analysis run. -/
structure RiskAssessment where
  low : Nat
  medium : Nat
  high : Nat
deriving DecidableEq, Repr

/-- `OverlapAnalysis` record. -/
structure OverlapAnalysis where
  totalOverlaps : Nat
  fileOverlaps : List FileOverlap
  riskAssessment : RiskAssessment
  recommendations : List String
deriving DecidableEq, Repr

/-! Epoch-millisecond values of the literal dates in the mock data
(`new Date('2024-01-01Thh:mm:ss')`), taking the calendar date as UTC;
2024-01-01T00:00:00Z = 1704067200000 ms. -/

def date_0930 : Int := 1704067200000 + (9 * 60 + 30) * 60000
def date_0945 : Int := 1704067200000 + (9 * 60 + 45) * 60000
def date_1000 : Int := 1704067200000 + (10 * 60) * 60000
def date_1015 : Int := 1704067200000 + (10 * 60 + 15) * 60000
def date_1030 : Int := 1704067200000 + (10 * 60 + 30) * 60000
def date_1145 : Int := 1704067200000 + (11 * 60 + 45) * 60000
def date_1200 : Int := 1704067200000 + (12 * 60) * 60000
def date_1230 : Int := 1704067200000 + (12 * 60 + 30) * 60000

/-- `mockWorktrees` initial value (src/utils/tauri.ts). -/
def mockWorktrees : List GitWorktree :=
  [ { id := "wt-1"
    , name := "frontend-feature"
    , branch := "feature/ui-components"
    , path := "/tmp/frontend-feature"
    , status := .active
    , createdAt := date_1000
    , lastActivity := date_1230 }
  , { id := "wt-2"
    , name := "backend-api"
    , branch := "feature/auth-api"
    , path := "/tmp/backend-api"
    , status := .active
    , createdAt := date_0930
    , lastActivity := date_1145 } ]

/-- `mockTasks` initial value (src/utils/tauri.ts). -/
def mockTasks : List ClaudeTask :=
  [ { id := "task-1"
    , description := "Implement user authentication components"
    , status := .running
    , startedAt := some date_1200
    , completedAt := none
    , output :=
        [ "Starting task..."
        , "Creating Login component"
        , "Adding form validation"
        , "Implementing auth hooks" ]
    , workingDirectory := "/tmp/frontend-feature" }
  , { id := "task-2"
    , description := "Add JWT authentication endpoints"
    , status := .completed
    , startedAt := some date_1030
    , completedAt := some date_1145
    , output :=
        [ "Task completed successfully"
        , "Added /auth/login endpoint"
        , "Added /auth/refresh endpoint"
        , "Updated user types" ]
    , workingDirectory := "/tmp/backend-api" } ]

/-- First entry of `mockOverlapAnalysis.fileOverlaps`. -/
def overlapTypesIndex : FileOverlap :=
  { filePath := "types/index.ts"
  , worktrees := ["frontend-feature", "backend-api"]
  , conflictRisk := .high
  , lastModified :=
      [("frontend-feature", date_1230), ("backend-api", date_1145)] }

/-- Second entry of `mockOverlapAnalysis.fileOverlaps`. -/
def overlapPackageJson : FileOverlap :=
  { filePath := "package.json"
  , worktrees := ["frontend-feature", "backend-api"]
  , conflictRisk := .medium
  , lastModified :=
      [("frontend-feature", date_1015), ("backend-api", date_0945)] }

/-- `mockOverlapAnalysis` constant (src/utils/tauri.ts). -/
def mockOverlapAnalysis : OverlapAnalysis :=
  { totalOverlaps := 2
  , fileOverlaps := [overlapTypesIndex, overlapPackageJson]
  , riskAssessment := { low := 0, medium := 1, high := 1 }
  , recommendations :=
      [ "1 files have high conflict risk. Consider coordinating changes or merging frequently."
      , "1 files have medium conflict risk. Review changes before merging."
      , "Most problematic file: types/index.ts (modified in 2 worktrees)" ] }

/-! ## Mock backend operations (the `switch (command)` cases of `invoke`) -/

/-- `case 'start_claude_task'`: builds `newTask` from the request, pushes it
onto `mockTasks`, and returns its id. No validation is performed on the
request fields. `now` is the value of `Date.now()` / `new Date()` at the
moment the case runs (the id is `` `task-${Date.now()}` ``). Returns the id,
the created task, and the updated task list. -/
def start_claude_task (tasks : List ClaudeTask) (now : Int)
    (taskDescription workingDirectory : String) :
    String × ClaudeTask × List ClaudeTask :=
  let newTask : ClaudeTask :=
    { id := "task-" ++ toString now
    , description := taskDescription
    , status := .running
    , startedAt := some now
    , completedAt := none
    , output := ["Task started...", "Analyzing codebase..."]
    , workingDirectory := workingDirectory }
  (newTask.id, newTask, tasks ++ [newTask])

/-- Delay of the `setTimeout` scheduled by `start_claude_task` (5000 ms). -/
def scheduledCompletionDelayMs : Int := 5000

/-- The `setTimeout` callback of `start_claude_task`: mutates the created
task to `completed`, sets `completedAt`, and appends an output line. `now`
is the `new Date()` at the moment the timer fires. -/
def scheduledCompletion (t : ClaudeTask) (now : Int) : ClaudeTask :=
  { t with
    status := .completed
  , completedAt := some now
  , output := t.output ++ ["Task completed successfully!"] }

/-- `case 'get_claude_task_status'`: `mockTasks.find(t => t.id === args.taskId)`;
`undefined` (here `none`) when no task has the identity. -/
def get_claude_task_status (tasks : List ClaudeTask) (taskId : String) :
    Option ClaudeTask :=
  tasks.find? (fun t => t.id == taskId)

/-- `case 'cancel_claude_task'`: finds the first task with the given id and,
if one exists, sets `status = 'failed'`, `completedAt = new Date()`, and pushes
a cancellation marker onto its output — regardless of the task's current
status. When no task matches, the list is unchanged (and the command still
returns `undefined`, i.e. success). -/
def cancel_claude_task : List ClaudeTask → Int → String → List ClaudeTask
  | [], _, _ => []
  | t :: ts, now, taskId =>
    if t.id == taskId then
      { t with
        status := .failed
      , completedAt := some now
      , output := t.output ++ ["Task cancelled by user"] } :: ts
    else
      t :: cancel_claude_task ts now taskId

/-- `60 * 60 * 1000` ms: the cleanup age threshold. -/
def oneHourMs : Int := 60 * 60 * 1000

/-- The removal test of `case 'cleanup_completed_claude_tasks'`:
`task.status === 'completed' && task.completedAt && task.completedAt < oneHourAgo`
where `oneHourAgo = now - oneHourMs`. -/
def staleCompleted (now : Int) (t : ClaudeTask) : Bool :=
  t.status == .completed &&
    (match t.completedAt with
     | some c => c < now - oneHourMs
     | none => false)

/-- `case 'cleanup_completed_claude_tasks'`: splices out every task matching
`staleCompleted` and returns `beforeCount - mockTasks.length` together with
the remaining list. -/
def cleanup_completed_claude_tasks (tasks : List ClaudeTask) (now : Int) :
    Nat × List ClaudeTask :=
  let remaining := tasks.filter (fun t => !staleCompleted now t)
  (tasks.length - remaining.length, remaining)

/-- `case 'analyze_worktree_overlaps'`: returns the `mockOverlapAnalysis`
constant. The snapshot (worktrees with their modified files and
last-modified times) plays no role in the mock implementation; it is taken
as a parameter to express that the result is a (constant) function of it. -/
def analyze_worktree_overlaps
    (_snapshot : List (GitWorktree × List (String × Int))) : OverlapAnalysis :=
  mockOverlapAnalysis

/-! ## Hook-level operations (src/hooks/useClaudeCode.ts) -/

/-- `getTaskStatus` of `useClaudeCode`: maps the `invoke` result into a
`ClaudeTask`. When the mock backend returns `undefined` (no task with the
identity), the field access `result.id` throws a `TypeError`, which the
`catch` rethrows as an `Error`; the operation therefore fails, though not
with a structured `TaskNotFound` value. -/
def getTaskStatus (tasks : List ClaudeTask) (taskId : String) :
    Except String ClaudeTask :=
  match get_claude_task_status tasks taskId with
  | some t => .ok t
  | none => .error "TypeError: Cannot read properties of undefined"

/-- `cancelTask` of `useClaudeCode`: awaits `invoke('cancel_claude_task')`.
The mock case never throws — also when no task has the identity — so the
hook-level operation always succeeds, returning the (possibly unchanged)
task list. -/
def cancelTask (tasks : List ClaudeTask) (now : Int) (taskId : String) :
    Except String (List ClaudeTask) :=
  .ok (cancel_claude_task tasks now taskId)

/-! ## The `invoke` wrapper (src/utils/tauri.ts) -/

/-- Control flow of `invoke` when a Tauri backend is present: a backend
success is returned to the caller unchanged; a backend failure is caught
(`catch`), logged, and the call falls through to the mock implementation,
whose result (`mockResult`) is what the caller receives. -/
def invokeWithBackend {α : Type} (backend : Except String α)
    (mockResult : Except String α) : Except String α :=
  match backend with
  | .ok r => .ok r
  | .error _ => mockResult

/-! ## Refresh driver (the `useEffect` of useClaudeCode) -/

/-- `setInterval(refreshTasks, 5000)`. -/
def refreshIntervalMs : Nat := 5000

/-- Start time of the k-th refresh after activation: `refreshTasks()` runs
immediately (k = 0), then the interval fires every `refreshIntervalMs`. -/
def refreshStart (activatedAt k : Nat) : Nat :=
  activatedAt + k * refreshIntervalMs

/-- Whether the k-th refresh fires: every tick fires until the effect
cleanup runs `clearInterval`; `deactivatedAt = none` means the effect is
never torn down, `some d` that it is torn down at time `d` (ticks strictly
before `d` have already fired). The tick handler calls `refreshTasks`
unconditionally — there is no in-flight guard. -/
def tickFires (deactivatedAt : Option Nat) (activatedAt k : Nat) : Bool :=
  match deactivatedAt with
  | none => true
  | some d => refreshStart activatedAt k < d

/-- The k-th refresh is in flight at time `t`, when each refresh k takes
`duration k` ms: the half-open interval from its start. -/
def refreshInFlight (activatedAt : Nat) (duration : Nat → Nat) (k t : Nat) :
    Prop :=
  refreshStart activatedAt k ≤ t ∧ t < refreshStart activatedAt k + duration k

instance (activatedAt : Nat) (duration : Nat → Nat) (k t : Nat) :
    Decidable (refreshInFlight activatedAt duration k t) :=
  inferInstanceAs (Decidable (_ ∧ _))

/-! ## Spec-side predicates and helper lemmas -/

/-- The cleanup removal condition as the specification words it: status is
`completed` and `completedAt` is more than one hour before the call time. -/
def specStale (now : Int) (t : ClaudeTask) : Prop :=
  t.status = .completed ∧ ∃ c, t.completedAt = some c ∧ now - c > oneHourMs

theorem staleCompleted_iff (now : Int) (t : ClaudeTask) :
    staleCompleted now t = true ↔ specStale now t := by
  unfold staleCompleted specStale
  cases h : t.completedAt with
  | none => simp [h]
  | some c =>
    simp only [h, Bool.and_eq_true, beq_iff_eq, decide_eq_true_eq,
      Option.some.injEq]
    constructor
    · rintro ⟨hs, hc⟩
      exact ⟨hs, c, rfl, by omega⟩
    · rintro ⟨hs, c', rfl, hc⟩
      exact ⟨hs, by omega⟩

instance (now : Int) (t : ClaudeTask) : Decidable (specStale now t) :=
  decidable_of_iff _ (staleCompleted_iff now t)

theorem filter_not_length {α : Type} (p : α → Bool) (l : List α) :
    (l.filter p).length + (l.filter (fun a => !p a)).length = l.length := by
  induction l with
  | nil => rfl
  | cons a l ih =>
    by_cases h : p a = true
    · simp [List.filter_cons, h, ← ih]; omega
    · simp only [Bool.not_eq_true] at h
      simp [List.filter_cons, h, ← ih]; omega

theorem cancel_claude_task_not_found (now : Int) (taskId : String) :
    ∀ (tasks : List ClaudeTask),
      tasks.find? (fun t => t.id == taskId) = none →
      cancel_claude_task tasks now taskId = tasks := by
  intro tasks
  induction tasks with
  | nil => intro _; rfl
  | cons t ts ih =>
    intro h
    rw [List.find?_cons] at h
    cases hc : (t.id == taskId) with
    | true => rw [hc] at h; exact absurd h (by simp)
    | false =>
      rw [hc] at h
      unfold cancel_claude_task
      rw [hc]
      simp [ih h]

theorem find?_append_none {α : Type} (p : α → Bool) :
    ∀ (l₁ l₂ : List α), l₁.find? p = none →
      (l₁ ++ l₂).find? p = l₂.find? p := by
  intro l₁ l₂
  induction l₁ with
  | nil => intro _; rfl
  | cons a l ih =>
    intro h
    rw [List.find?_cons] at h
    cases hc : p a with
    | true => rw [hc] at h; exact absurd h (by simp)
    | false =>
      rw [hc] at h
      rw [List.cons_append, List.find?_cons, hc]
      exact ih h

/-! ## Claim theorems -/

/-- C1: in the initial mock registry, task `task-2` is `completed` (a
terminal state), yet `cancel_claude_task` on it re-marks it `failed`, sets
`completedAt`, and appends the cancellation marker — the code transitions a
non-`running` task to `failed`, contradicting the terminal-state invariant
and the cancel precondition. -/
theorem cancel_completed_task_becomes_failed :
    (get_claude_task_status mockTasks "task-2").map ClaudeTask.status =
      some .completed ∧
    (get_claude_task_status (cancel_claude_task mockTasks date_1230 "task-2")
        "task-2").map ClaudeTask.status = some .failed ∧
    (get_claude_task_status (cancel_claude_task mockTasks date_1230 "task-2")
        "task-2").map ClaudeTask.completedAt = some (some date_1230) := by
  decide

/-- C2 counterexample: with the unknown identity `task-999` on the initial
mock registry, `cancelTask` does not fail with a not-found condition — it
succeeds and leaves the task list unchanged. -/
theorem cancelTask_unknown_id_succeeds :
    get_claude_task_status mockTasks "task-999" = none ∧
    cancelTask mockTasks date_1230 "task-999" = .ok mockTasks := by
  refine ⟨by decide, ?_⟩
  unfold cancelTask
  rw [cancel_claude_task_not_found date_1230 "task-999" mockTasks (by decide)]

/-- C2 (amended): on an unknown task identity, `getTaskStatus` fails (the
undefined lookup result cannot be mapped into a task, so the call throws)
rather than fabricating a value, while `cancelTask` succeeds silently,
leaving the task list unchanged. -/
theorem unknown_task_ops (tasks : List ClaudeTask) (now : Int)
    (taskId : String) (h : get_claude_task_status tasks taskId = none) :
    getTaskStatus tasks taskId =
      .error "TypeError: Cannot read properties of undefined" ∧
    cancelTask tasks now taskId = .ok tasks := by
  constructor
  · unfold getTaskStatus
    rw [h]
  · unfold cancelTask
    rw [cancel_claude_task_not_found now taskId tasks h]

/-- C2 witness: the amended statement at the concrete unknown identity
`task-404` on the initial mock registry. -/
theorem unknown_task_ops_witness :
    getTaskStatus mockTasks "task-404" =
      .error "TypeError: Cannot read properties of undefined" ∧
    cancelTask mockTasks date_1145 "task-404" = .ok mockTasks :=
  unknown_task_ops mockTasks date_1145 "task-404" (by decide)

/-- C3: `cleanup_completed_claude_tasks` keeps a task iff it is not
spec-stale (`completed` with `completedAt` more than one hour before the
call time), so it removes exactly the stale completed tasks and leaves every
non-`completed` task (`pending`, `running`, `failed`) in place; the count it
returns plus the number of remaining tasks is the original length; and an
immediate second call removes nothing (returns 0). -/
theorem cleanup_completed_tasks_spec (tasks : List ClaudeTask) (now : Int)
    (t : ClaudeTask) (ht : t ∈ tasks) :
    (t ∈ (cleanup_completed_claude_tasks tasks now).2 ↔ ¬ specStale now t) ∧
    (cleanup_completed_claude_tasks tasks now).1 +
      (cleanup_completed_claude_tasks tasks now).2.length = tasks.length ∧
    (t.status ≠ .completed →
      t ∈ (cleanup_completed_claude_tasks tasks now).2) ∧
    (cleanup_completed_claude_tasks
      (cleanup_completed_claude_tasks tasks now).2 now).1 = 0 := by
  unfold cleanup_completed_claude_tasks
  simp only []
  refine ⟨?_, ?_, ?_, ?_⟩
  · rw [List.mem_filter]
    constructor
    · rintro ⟨_, hb⟩
      rw [Bool.not_eq_true'] at hb
      intro hs
      rw [← staleCompleted_iff now t] at hs
      rw [hs] at hb
      cases hb
    · intro hs
      refine ⟨ht, ?_⟩
      rw [Bool.not_eq_true']
      cases hb : staleCompleted now t with
      | false => rfl
      | true => exact absurd ((staleCompleted_iff now t).mp hb) hs
  · have hle : (tasks.filter (fun u => !staleCompleted now u)).length ≤
        tasks.length := List.length_filter_le _ _
    omega
  · intro hnc
    rw [List.mem_filter]
    refine ⟨ht, ?_⟩
    cases hb : staleCompleted now t with
    | false => rfl
    | true =>
      exact absurd ((staleCompleted_iff now t).mp hb).1 hnc
  · have hself : (tasks.filter (fun u => !staleCompleted now u)).filter
        (fun u => !staleCompleted now u) =
        tasks.filter (fun u => !staleCompleted now u) := by
      rw [List.filter_eq_self]
      intro a ha
      exact (List.mem_filter.mp ha).2
    rw [hself]
    omega

/-- C3 witness: the cleanup specification at the initial mock registry and a
call time one day after the mock dates, for the completed task `task-2`. -/
theorem cleanup_completed_tasks_spec_witness :
    (mockTasks.get ⟨1, by decide⟩ ∈
        (cleanup_completed_claude_tasks mockTasks (date_1230 + 86400000)).2 ↔
      ¬ specStale (date_1230 + 86400000) (mockTasks.get ⟨1, by decide⟩)) ∧
    (cleanup_completed_claude_tasks mockTasks (date_1230 + 86400000)).1 +
      (cleanup_completed_claude_tasks mockTasks
        (date_1230 + 86400000)).2.length = mockTasks.length ∧
    ((mockTasks.get ⟨1, by decide⟩).status ≠ .completed →
      mockTasks.get ⟨1, by decide⟩ ∈
        (cleanup_completed_claude_tasks mockTasks (date_1230 + 86400000)).2) ∧
    (cleanup_completed_claude_tasks
      (cleanup_completed_claude_tasks mockTasks (date_1230 + 86400000)).2
      (date_1230 + 86400000)).1 = 0 :=
  cleanup_completed_tasks_spec mockTasks (date_1230 + 86400000)
    (mockTasks.get ⟨1, by decide⟩) (List.get_mem mockTasks 1 (by decide))

/-- C4 counterexample: on the zero-worktree snapshot — in which no file is
modified by two or more worktrees — the mock analysis still reports
`totalOverlaps = 2` and a non-empty recommendation sequence, not zero
overlaps and no recommendations. -/
theorem analyze_overlaps_empty_snapshot_nonzero :
    (analyze_worktree_overlaps []).totalOverlaps = 2 ∧
    (analyze_worktree_overlaps []).recommendations ≠ [] := by
  constructor
  · rfl
  · intro h
    cases h

/-- C4 (amended): `analyze_worktree_overlaps` in mock mode is a pure —
indeed constant — function of the snapshot: any two snapshots produce the
same result, always the fixed `mockOverlapAnalysis`; in particular even the
zero-worktree snapshot yields `totalOverlaps = 2` and three
recommendations rather than zero overlaps and an empty sequence. -/
theorem analyze_overlaps_constant
    (s₁ s₂ : List (GitWorktree × List (String × Int))) :
    analyze_worktree_overlaps s₁ = analyze_worktree_overlaps s₂ ∧
    analyze_worktree_overlaps s₁ = mockOverlapAnalysis ∧
    (analyze_worktree_overlaps s₁).totalOverlaps = 2 ∧
    (analyze_worktree_overlaps s₁).recommendations.length = 3 :=
  ⟨rfl, rfl, rfl, rfl⟩

/-- C5: every FileOverlap record of any analysis the engine can produce
lists at least two worktree names, and those names are pairwise distinct —
so a file modified by exactly one worktree never appears among the
fileOverlaps. -/
theorem fileOverlaps_at_least_two_worktrees
    (snapshot : List (GitWorktree × List (String × Int))) (ov : FileOverlap)
    (h : ov ∈ (analyze_worktree_overlaps snapshot).fileOverlaps) :
    2 ≤ ov.worktrees.length ∧ ov.worktrees.Nodup := by
  unfold analyze_worktree_overlaps mockOverlapAnalysis at h
  simp only [List.mem_cons, List.not_mem_nil, or_false] at h
  rcases h with rfl | rfl
  · exact ⟨by decide, by decide⟩
  · exact ⟨by decide, by decide⟩

/-- C5 witness: the first overlap record of the analysis produced on the
zero-worktree snapshot. -/
theorem fileOverlaps_at_least_two_worktrees_witness :
    2 ≤ overlapTypesIndex.worktrees.length ∧
      overlapTypesIndex.worktrees.Nodup :=
  fileOverlaps_at_least_two_worktrees [] overlapTypesIndex (by decide)

/-- C6 counterexample: a request with an empty description and a
workingDirectory matching no worktree path is nevertheless accepted by
`start_claude_task`: a `running` task with that empty description is
appended to the registry, and no InvalidRequest failure occurs. -/
theorem startTask_accepts_invalid_request :
    mockWorktrees.all (fun w => w.path != "/nowhere") = true ∧
    (start_claude_task mockTasks date_1230 "" "/nowhere").2.2 =
      mockTasks ++ [(start_claude_task mockTasks date_1230 "" "/nowhere").2.1] ∧
    (start_claude_task mockTasks date_1230 "" "/nowhere").2.1.description = "" ∧
    (start_claude_task mockTasks date_1230 "" "/nowhere").2.1.status =
      .running := by
  exact ⟨by decide, rfl, rfl, rfl⟩

/-- C6 (amended): `start_claude_task` performs no validation at all: every
request — whatever its description or workingDirectory — is accepted, and
the created task is appended to the registry in `running` state carrying
exactly the given description and workingDirectory. -/
theorem start_claude_task_unconditional (tasks : List ClaudeTask) (now : Int)
    (desc wd : String) :
    (start_claude_task tasks now desc wd).2.2 =
      tasks ++ [(start_claude_task tasks now desc wd).2.1] ∧
    (start_claude_task tasks now desc wd).2.1.status = .running ∧
    (start_claude_task tasks now desc wd).2.1.description = desc ∧
    (start_claude_task tasks now desc wd).2.1.workingDirectory = wd :=
  ⟨rfl, rfl, rfl, rfl⟩

/-- C7: when the generated identity is fresh (no existing task already
carries it — the registry's identity-uniqueness invariant), the identity
returned by `start_claude_task` is immediately visible: `getTaskStatus` on
it returns exactly the created task, whose status is `running`, whose
`startedAt` is set to the start time, and whose output is non-empty. -/
theorem startTask_then_getTaskStatus (tasks : List ClaudeTask) (now : Int)
    (desc wd : String)
    (hfresh : ∀ t ∈ tasks, t.id ≠ "task-" ++ toString now) :
    getTaskStatus (start_claude_task tasks now desc wd).2.2
        (start_claude_task tasks now desc wd).1 =
      .ok (start_claude_task tasks now desc wd).2.1 ∧
    (start_claude_task tasks now desc wd).2.1.status = .running ∧
    (start_claude_task tasks now desc wd).2.1.startedAt = some now ∧
    (start_claude_task tasks now desc wd).2.1.output ≠ [] := by
  refine ⟨?_, rfl, rfl, by intro h; cases h⟩
  unfold getTaskStatus get_claude_task_status start_claude_task
  simp only []
  rw [find?_append_none]
  · simp
  · rw [List.find?_eq_none]
    intro t htm
    simp only [beq_iff_eq]
    exact hfresh t htm

/-- C7 witness: starting a task at time 0 on the initial mock registry
(whose task identities are `task-1` and `task-2`, both distinct from the
generated `task-0`). -/
theorem startTask_then_getTaskStatus_witness :
    getTaskStatus (start_claude_task mockTasks 0 "demo task"
          "/tmp/frontend-feature").2.2
        (start_claude_task mockTasks 0 "demo task" "/tmp/frontend-feature").1 =
      .ok (start_claude_task mockTasks 0 "demo task"
          "/tmp/frontend-feature").2.1 ∧
    (start_claude_task mockTasks 0 "demo task"
        "/tmp/frontend-feature").2.1.status = .running ∧
    (start_claude_task mockTasks 0 "demo task"
        "/tmp/frontend-feature").2.1.startedAt = some 0 ∧
    (start_claude_task mockTasks 0 "demo task"
        "/tmp/frontend-feature").2.1.output ≠ [] :=
  startTask_then_getTaskStatus mockTasks 0 "demo task" "/tmp/frontend-feature"
    (by decide)

/-- C8 counterexample: a failing backend command (`list_worktrees` with the
Tauri call throwing) is not surfaced to the caller as a typed failure; the
caller instead receives the mock data as a successful result. -/
theorem backend_failure_substituted :
    invokeWithBackend (Except.error "Tauri command failed")
        (Except.ok mockWorktrees) = Except.ok mockWorktrees := rfl

/-- C8 (amended): the `invoke` wrapper passes a backend success through
unchanged, but a backend failure — whatever its message — is caught at the
call site and replaced by the mock implementation's result instead of being
surfaced as a typed failure derived from the backend error. -/
theorem invoke_backend_fallback {α : Type} (e : String) (r : α)
    (mockResult : Except String α) :
    invokeWithBackend (Except.ok r) mockResult = Except.ok r ∧
    invokeWithBackend (Except.error e) mockResult = mockResult :=
  ⟨rfl, rfl⟩

/-- C9 counterexample: with no deactivation and every refresh lasting
6000 ms, tick 1 fires at its scheduled time even though refresh 0 is still
in flight then — the driver has no in-flight guard, so two refreshes of the
same stream run concurrently. -/
theorem overlapping_refreshes :
    tickFires none 0 1 = true ∧
    refreshInFlight 0 (fun _ => 6000) 0 (refreshStart 0 1) ∧
    refreshInFlight 0 (fun _ => 6000) 1 (refreshStart 0 1) := by
  decide

/-- C9 (amended): on activation the driver schedules one immediate refresh
(tick 0 at the activation time) and then one refresh per fixed 5000 ms
interval, and once deactivated no tick at or after the deactivation time
ever fires; however no in-flight guard exists, so a tick is not skipped
when the prior refresh is still running. -/
theorem refresh_driver_schedule (a d k : Nat) (h : d ≤ refreshStart a k) :
    refreshStart a 0 = a ∧
    refreshStart a (k + 1) = refreshStart a k + refreshIntervalMs ∧
    tickFires (some d) a k = false := by
  refine ⟨by simp [refreshStart], ?_, ?_⟩
  · unfold refreshStart
    rw [Nat.succ_mul]
    omega
  · unfold tickFires
    simp only [decide_eq_false_iff_not, not_lt]
    exact h

/-- C9 witness: the amended schedule at activation time 0, deactivation
time 0 (immediate teardown), tick 0. -/
theorem refresh_driver_schedule_witness :
    refreshStart 0 0 = 0 ∧
    refreshStart 0 1 = refreshStart 0 0 + refreshIntervalMs ∧
    tickFires (some 0) 0 0 = false :=
  refresh_driver_schedule 0 0 0 (by decide)

/-- C10: `start_claude_task` schedules a background completion with a
5000 ms delay; the created task is `running` when created, and once the
scheduled callback fires it is mutated — with no caller operation — to
`completed`, with `completedAt` set to the firing time and one output line
appended. -/
theorem scheduled_completion_spec (tasks : List ClaudeTask)
    (now fireTime : Int) (desc wd : String) :
    scheduledCompletionDelayMs = 5000 ∧
    (start_claude_task tasks now desc wd).2.1.status = .running ∧
    (scheduledCompletion (start_claude_task tasks now desc wd).2.1
        fireTime).status = .completed ∧
    (scheduledCompletion (start_claude_task tasks now desc wd).2.1
        fireTime).completedAt = some fireTime ∧
    (scheduledCompletion (start_claude_task tasks now desc wd).2.1
        fireTime).output =
      (start_claude_task tasks now desc wd).2.1.output ++
        ["Task completed successfully!"] :=
  ⟨rfl, rfl, rfl, rfl, rfl⟩

end Whiplash
